import Mathlib

/-!
Shallow embedding of src/driver/cio.py (the Storidge CIO adapter for the
Flocker IBlockDeviceAPI) and verification of the specification claims.

Modelling conventions:
* Python runtime outcomes are `Except PyErr v`.  A reference to a name that
  is defined nowhere in the module is a Python NameError and is embedded as
  `Except.error (PyErr.nameError "<the name>")` at the exact statement where
  CPython would resolve the name.
* Line 195 of cio.py (`2b"--bytes"` inside the command list literal) is not
  valid Python syntax; in CPython this is a SyntaxError.  It is embedded as
  `PyErr.moduleParseError` at that statement (note that in a real CPython run
  the whole module would already fail to import because of it; the claims and
  the spec reason per method body, so the embedding does too).
* Python unicode strings are `String`; `uuid.UUID` objects are `UUIDv`
  (their 32 lowercase hex digits); dictionaries are association lists.
* No method of the class ever assigns to a field of `self`, so each method is
  embedded as a pure function; `runOp` additionally exposes every public
  operation as a state transformer `(self, result)` to state frame claims.
-/

/-- PyErr enumerates the runtime outcomes the embedded module can raise:
the four Flocker error kinds imported or defined at lines 20-23 and 42,
plus the builtin Python errors the broken bodies actually hit
(NameError for an undefined name, the line-195 parse error, KeyError,
ValueError, UnicodeDecodeError, and the generic Exception of line 328). -/
inductive PyErr where
  | nameError (name : String)
  | moduleParseError
  | keyError (key : String)
  | valueError
  | unicodeDecodeError
  | unknownVolume (blockdevice_id : String)
  | alreadyAttachedVolume (blockdevice_id : String)
  | unattachedVolume (blockdevice_id : String)
  | attachedUnexpectedDevice
  | genericException (msg : String)
  deriving Repr, DecidableEq

/-- UUIDv models a Python uuid.UUID object by its 32 lowercase hex digits. -/
structure UUIDv where
  hex32 : String
  deriving Repr, DecidableEq

/-- isHexChar is true on the characters int(s, 16) accepts. -/
def isHexChar (c : Char) : Bool :=
  c.isDigit || (97 ≤ c.toNat && c.toNat ≤ 102) || (65 ≤ c.toNat && c.toNat ≤ 70)

/-- isBraceChar is true on the two characters Python strip removes here
(codepoints 123 and 125, the curly braces). -/
def isBraceChar (c : Char) : Bool :=
  c.toNat == 123 || c.toNat == 125

/-- pyUUID embeds the Python 2 uuid.UUID(hex) constructor: drop every
occurrence of urn: and uuid:, strip curly braces from both ends, drop the
dashes, then require exactly 32 hex digits (else ValueError). -/
def pyUUID (s : String) : Except PyErr UUIDv :=
  let h := (s.replace "urn:" "").replace "uuid:" ""
  let cs := h.toList
  let cs := ((cs.dropWhile isBraceChar).reverse.dropWhile isBraceChar).reverse
  let cs := cs.filter (fun c => c.toNat ≠ 45)
  if cs.length = 32 && cs.all isHexChar then
    Except.ok ⟨String.mk (cs.map Char.toLower)⟩
  else
    Except.error PyErr.valueError

/-- uuidStr embeds unicode(u) / str(u) on a Python UUID: the canonical
8-4-4-4-12 dashed lowercase rendering. -/
def uuidStr (u : UUIDv) : String :=
  let cs := u.hex32.toList
  String.mk (cs.take 8) ++ "-" ++ String.mk ((cs.drop 8).take 4) ++ "-" ++
    String.mk ((cs.drop 12).take 4) ++ "-" ++ String.mk ((cs.drop 16).take 4) ++
    "-" ++ String.mk (cs.drop 20)

/-- DATASET_ID_LABEL, cio.py line 25. -/
def DATASET_ID_LABEL : String := "flocker-dataset-id"

/-- METADATA_VERSION_LABEL, cio.py line 26. -/
def METADATA_VERSION_LABEL : String := "flocker-metadata-version"

/-- CLUSTER_ID_LABEL, cio.py line 27. -/
def CLUSTER_ID_LABEL : String := "flocker-cluster-id"

/-- AttachData models the attach_data attribute a CIO volume object is read
through at lines 93 and 334: the instance the volume is attached to (None
when unattached) and the OS device name. -/
structure AttachData where
  instance_id : Option String
  device : String
  deriving Repr, DecidableEq

/-- CIOVolume models the backend volume object the module reads: an id, a
size in GiB, attach_data, and a tag dictionary. -/
structure CIOVolume where
  id : String
  size : Int
  attach_data : AttachData
  tags : List (String × String)
  deriving Repr, DecidableEq

/-- tagsGet embeds dict.get on a tag dictionary (association list, first
binding wins). -/
def tagsGet (tags : List (String × String)) (k : String) : Option String :=
  (tags.find? (fun p => p.fst == k)).map Prod.snd

/-- BlockDeviceVolume embeds the Flocker record constructed at lines 90-95. -/
structure BlockDeviceVolume where
  blockdevice_id : String
  size : Int
  attached_to : Option String
  dataset_id : UUIDv
  deriving Repr, DecidableEq

/-- GiB_to_Byte embeds int(GiB(n).to_Byte().value): multiply by 2^30. -/
def GiB_to_Byte (n : Int) : Int := n * 1073741824

/-- Env models the world outside the module: the cloud instance-metadata
mapping that boto get_instance_metadata() returns at line 149. -/
structure Env where
  instance_metadata : List (String × String)
  deriving Repr, DecidableEq

/-- CIOBlockDeviceAPI models the adapter instance state: the two fields
__init__ assigns at lines 132-133.  The lock field records whether the
threading.Lock is currently held. -/
structure CIOBlockDeviceAPI where
  cluster_id : UUIDv
  lock : Bool
  deriving Repr, DecidableEq

/-- CIOBlockDeviceAPI_init embeds __init__ (lines 125-133): store the
cluster id and a fresh, unheld threading.Lock. -/
def CIOBlockDeviceAPI_init (cluster_id : UUIDv) : CIOBlockDeviceAPI :=
  { cluster_id := cluster_id, lock := false }

/-- _blockdevicevolume_from_cio_volume embeds lines 81-95.  Keyword
arguments are evaluated left to right: unicode(cio_volume.id) first, then
the size expression, which reads the name ebs_volume - defined nowhere in
the module (line 92), hence NameError there. -/
def _blockdevicevolume_from_cio_volume (cio_volume : CIOVolume) :
    Except PyErr BlockDeviceVolume := do
  let blockdevice_id := cio_volume.id
  let ebs_volume ← (Except.error (PyErr.nameError "ebs_volume") :
    Except PyErr CIOVolume)
  let size := GiB_to_Byte ebs_volume.size
  let attached_to := cio_volume.attach_data.instance_id
  let dataset_tag ←
    match tagsGet cio_volume.tags DATASET_ID_LABEL with
    | some t => Except.ok t
    | none => Except.error (PyErr.keyError DATASET_ID_LABEL)
  let dataset_id ← pyUUID dataset_tag
  return { blockdevice_id := blockdevice_id, size := size,
           attached_to := attached_to, dataset_id := dataset_id }

/-- _is_cluster_volume embeds lines 98-116: read the cluster-id tag; when
present, parse it as a UUID (ValueError possible) and compare with the
given cluster id; otherwise False. -/
def _is_cluster_volume (cluster_id : UUIDv) (cio_volume : CIOVolume) :
    Except PyErr Bool :=
  match tagsGet cio_volume.tags CLUSTER_ID_LABEL with
  | some raw => do
      let actual_cluster_id ← pyUUID raw
      if actual_cluster_id = cluster_id then
        return true
      else
        return false
  | none => return false

/-- allocation_unit embeds lines 135-140: return int(GiB(8).to_Byte().value)
unconditionally. -/
def allocation_unit (_self : CIOBlockDeviceAPI) : Except PyErr Int :=
  Except.ok (GiB_to_Byte 8)

/-- compute_instance_id embeds lines 142-149: read key instance-id out of
boto get_instance_metadata() (KeyError when absent) and ascii-decode it
(UnicodeDecodeError on a codepoint above 127). -/
def compute_instance_id (env : Env) (_self : CIOBlockDeviceAPI) :
    Except PyErr String :=
  match tagsGet env.instance_metadata "instance-id" with
  | some s =>
      if s.toList.all (fun c => c.toNat < 128) then Except.ok s
      else Except.error PyErr.unicodeDecodeError
  | none => Except.error (PyErr.keyError "instance-id")

/-- _get_cio_volume embeds lines 151-171: the for loop at line 168 reads the
name all_volumes, which is defined nowhere (the lookup is a commented-out
TODO), hence NameError there; the dead continuation is the loop searching
for a matching id, falling through to raise UnknownVolume at line 171. -/
def _get_cio_volume (_self : CIOBlockDeviceAPI) (blockdevice_id : String) :
    Except PyErr CIOVolume := do
  let all_volumes ← (Except.error (PyErr.nameError "all_volumes") :
    Except PyErr (List CIOVolume))
  match all_volumes.find? (fun v => v.id == blockdevice_id) with
  | some volume => return volume
  | none => Except.error (PyErr.unknownVolume blockdevice_id)

/-- create_volume_metadata embeds the dict literal at lines 199-203: the
three Flocker sidecar tags stamped on a created volume. -/
def create_volume_metadata (self : CIOBlockDeviceAPI) (dataset_id : UUIDv) :
    List (String × String) :=
  [(METADATA_VERSION_LABEL, "1"),
   (CLUSTER_ID_LABEL, uuidStr self.cluster_id),
   (DATASET_ID_LABEL, uuidStr dataset_id)]

/-- create_volume embeds lines 174-211.  After the three constant
assignments, the command list literal at line 195 contains 2b"--bytes",
which is not Python syntax, so execution is embedded as the parse error
there (in CPython the error in fact aborts the import of the whole module).
The dead continuation builds the metadata dict of lines 199-203 and then
reads the name requested_volume at line 211, defined nowhere (its
assignment at lines 181-182 is commented out), hence NameError. -/
def create_volume (self : CIOBlockDeviceAPI) (dataset_id : UUIDv)
    (_size : Int) : Except PyErr BlockDeviceVolume := do
  let _redundancy : Int := 2
  let _min_iops : Int := 1000
  let _max_iops : Int := 2000
  let _command ← (Except.error PyErr.moduleParseError :
    Except PyErr (List String))
  let _metadata := create_volume_metadata self dataset_id
  let requested_volume ← (Except.error (PyErr.nameError "requested_volume") :
    Except PyErr CIOVolume)
  _blockdevicevolume_from_cio_volume requested_volume

/-- list_volumes embeds lines 213-225: volumes starts empty; line 221 then
reads the name cio_volume, defined nowhere (the backend loop at line 219 is
a commented-out TODO), hence NameError before _is_cluster_volume is ever
entered; the dead continuation appends the converted volume when the
cluster check passes and returns the list. -/
def list_volumes (self : CIOBlockDeviceAPI) :
    Except PyErr (List BlockDeviceVolume) := do
  let volumes : List BlockDeviceVolume := []
  let cio_volume ← (Except.error (PyErr.nameError "cio_volume") :
    Except PyErr CIOVolume)
  let is_member ← _is_cluster_volume self.cluster_id cio_volume
  if is_member then do
    let bv ← _blockdevicevolume_from_cio_volume cio_volume
    return volumes ++ [bv]
  else
    return volumes

/-- attach_volume embeds lines 227-263: look the volume up (which fails
with NameError all_volumes inside _get_cio_volume), convert it, then at
line 263 return the name attached_volume, defined nowhere (its assignment
at line 258 is commented out), hence NameError there. -/
def attach_volume (self : CIOBlockDeviceAPI) (blockdevice_id : String)
    (_attach_to : String) : Except PyErr BlockDeviceVolume := do
  let cio_volume ← _get_cio_volume self blockdevice_id
  let _volume ← _blockdevicevolume_from_cio_volume cio_volume
  let attached_volume ← (Except.error (PyErr.nameError "attached_volume") :
    Except PyErr BlockDeviceVolume)
  return attached_volume

/-- detach_volume embeds lines 265-285: look the volume up (NameError
all_volumes inside _get_cio_volume); everything after is comments, so a
completed call would return None. -/
def detach_volume (self : CIOBlockDeviceAPI) (blockdevice_id : String) :
    Except PyErr Unit := do
  let _cio_volume ← _get_cio_volume self blockdevice_id
  return ()

/-- destroy_volume embeds lines 287-305: look the volume up (NameError
all_volumes inside _get_cio_volume); everything after is comments, so a
completed call would return None. -/
def destroy_volume (self : CIOBlockDeviceAPI) (blockdevice_id : String) :
    Except PyErr Unit := do
  let _cio_volume ← _get_cio_volume self blockdevice_id
  return ()

/-- get_device_path embeds lines 307-334: look the volume up (NameError
all_volumes inside _get_cio_volume), convert it (itself NameError
ebs_volume), then the dead continuation: raise UnattachedVolume when
attached_to is None (line 323), raise the generic Exception when attached
to another instance (lines 326-332), else call _expected_device at line
334 - a name defined nowhere in the module, hence NameError there. -/
def get_device_path (env : Env) (self : CIOBlockDeviceAPI)
    (blockdevice_id : String) : Except PyErr String := do
  let cio_volume ← _get_cio_volume self blockdevice_id
  let volume ← _blockdevicevolume_from_cio_volume cio_volume
  match volume.attached_to with
  | none => Except.error (PyErr.unattachedVolume blockdevice_id)
  | some a => do
      let cid ← compute_instance_id env self
      if a ≠ cid then
        Except.error (PyErr.genericException
          ("Volume is attached to " ++ a ++ ", not to " ++ cid))
      else
        Except.error (PyErr.nameError "_expected_device")

/-- OpCall enumerates one call to each public operation of the adapter
class together with its arguments. -/
inductive OpCall where
  | allocationUnit
  | computeInstanceId
  | createVolume (dataset_id : UUIDv) (size : Int)
  | listVolumes
  | attachVolume (blockdevice_id : String) (attach_to : String)
  | detachVolume (blockdevice_id : String)
  | destroyVolume (blockdevice_id : String)
  | getDevicePath (blockdevice_id : String)
  deriving Repr, DecidableEq

/-- PyValue is the union of the values the public operations can return. -/
inductive PyValue where
  | int (n : Int)
  | str (s : String)
  | vol (v : BlockDeviceVolume)
  | vols (vs : List BlockDeviceVolume)
  | path (p : String)
  | pynone
  deriving Repr, DecidableEq

/-- runOp runs one public operation of the adapter as a state transformer:
the post-call instance state paired with the outcome.  No method body of
the class assigns to any field of self, so every branch returns self
unchanged. -/
def runOp (env : Env) (self : CIOBlockDeviceAPI) :
    OpCall → CIOBlockDeviceAPI × Except PyErr PyValue
  | .allocationUnit => (self, (allocation_unit self).map PyValue.int)
  | .computeInstanceId => (self, (compute_instance_id env self).map PyValue.str)
  | .createVolume d s => (self, (create_volume self d s).map PyValue.vol)
  | .listVolumes => (self, (list_volumes self).map PyValue.vols)
  | .attachVolume b a => (self, (attach_volume self b a).map PyValue.vol)
  | .detachVolume b => (self, (detach_volume self b).map (fun _ => PyValue.pynone))
  | .destroyVolume b => (self, (destroy_volume self b).map (fun _ => PyValue.pynone))
  | .getDevicePath b => (self, (get_device_path env self b).map PyValue.path)

/-- isNamedFlockerError is true exactly on the four named Flocker error
kinds (UnknownVolume, AlreadyAttachedVolume, UnattachedVolume,
AttachedUnexpectedDevice). -/
def isNamedFlockerError : PyErr → Bool
  | .unknownVolume _ => true
  | .alreadyAttachedVolume _ => true
  | .unattachedVolume _ => true
  | .attachedUnexpectedDevice => true
  | _ => false

/-- resultNamedError is true when an outcome is one of the four named
Flocker error kinds. -/
def resultNamedError {α : Type} : Except PyErr α → Bool
  | .error e => isNamedFlockerError e
  | .ok _ => false

/-- classMethodNames lists, in source order, the methods defined in the
CIOBlockDeviceAPI class body (lines 119-334). -/
def classMethodNames : List String :=
  ["__init__", "allocation_unit", "compute_instance_id", "_get_cio_volume",
   "create_volume", "list_volumes", "attach_volume", "detach_volume",
   "destroy_volume", "get_device_path"]

/-- isPublicName follows the Python convention: a name is public unless it
starts with an underscore (codepoint 95). -/
def isPublicName (s : String) : Bool :=
  match s.toList with
  | [] => true
  | c :: _ => c.toNat ≠ 95

/-- publicOperationNames is the public surface of the adapter class. -/
def publicOperationNames : List String := classMethodNames.filter isPublicName

/-- claimedOperationNames is the operation list the specification gives for
the adapter class. -/
def claimedOperationNames : List String :=
  ["allocation_unit", "create_volume", "list_volumes", "attach_volume",
   "detach_volume", "destroy_volume", "get_device_path"]

/-- uuid0 is a concrete UUID value used in closed statements. -/
def uuid0 : UUIDv := ⟨"00000000000000000000000000000000"⟩

/-- uuid1 is a second concrete UUID value used in closed statements. -/
def uuid1 : UUIDv := ⟨"00000000000000000000000000000001"⟩

/-- resultNamedError is unaffected by mapping the success value. -/
theorem resultNamedError_map {α β : Type} (f : α → β) (r : Except PyErr α) :
    resultNamedError (r.map f) = resultNamedError r := by
  cases r <;> rfl

/-- C1: for every public operation of the adapter, every instance state and
every input, the outcome is never one of the four named Flocker error kinds
(UnknownVolume, AlreadyAttachedVolume, UnattachedVolume,
AttachedUnexpectedDevice): every path that could reach one of their raise
sites fails earlier on an unimplemented TODO (an undefined name or the
line-195 parse error), and the remaining operations succeed or fail with
builtin errors only. -/
theorem c1_no_named_error_is_ever_raised (env : Env) (self : CIOBlockDeviceAPI)
    (call : OpCall) :
    resultNamedError (runOp env self call).2 = false := by
  cases call with
  | computeInstanceId =>
      show resultNamedError ((compute_instance_id env self).map PyValue.str) = false
      rw [resultNamedError_map]
      unfold compute_instance_id
      cases tagsGet env.instance_metadata "instance-id" with
      | none => rfl
      | some s =>
          dsimp only
          split <;> rfl
  | allocationUnit => rfl
  | createVolume d s => rfl
  | listVolumes => rfl
  | attachVolume b a => rfl
  | detachVolume b => rfl
  | destroyVolume b => rfl
  | getDevicePath b => rfl

/-- C2 counterexample: the claim says no operation returns a value on any
input, but allocation_unit returns 8589934592 here. -/
theorem c2_counterexample :
    (runOp { instance_metadata := [] } (CIOBlockDeviceAPI_init uuid0)
      OpCall.allocationUnit).2 = Except.ok (PyValue.int 8589934592) := rfl

/-- C2 (amended): the six backend operations create_volume, list_volumes,
attach_volume, detach_volume, destroy_volume and get_device_path fail on
every input before any backend call (a parse error or a NameError) and
never return a value, but allocation_unit returns the constant 8589934592
and compute_instance_id executes a metadata lookup and returns the
instance id when the metadata service provides one. -/
theorem c2_amended (env : Env) (self : CIOBlockDeviceAPI) (d : UUIDv)
    (sz : Int) (b a : String) :
    create_volume self d sz = Except.error PyErr.moduleParseError ∧
    list_volumes self = Except.error (PyErr.nameError "cio_volume") ∧
    attach_volume self b a = Except.error (PyErr.nameError "all_volumes") ∧
    detach_volume self b = Except.error (PyErr.nameError "all_volumes") ∧
    destroy_volume self b = Except.error (PyErr.nameError "all_volumes") ∧
    get_device_path env self b = Except.error (PyErr.nameError "all_volumes") ∧
    allocation_unit self = Except.ok 8589934592 ∧
    compute_instance_id { instance_metadata := [("instance-id", "i-1")] } self
      = Except.ok "i-1" :=
  ⟨rfl, rfl, rfl, rfl, rfl, rfl, rfl, rfl⟩

/-- C3 counterexample: create_volume does not fail on the undefined name
requested_volume (it fails earlier, at the malformed line-195 command
statement), and attach_volume does not fail on the undefined name
attached_volume (it fails earlier, on all_volumes inside _get_cio_volume). -/
theorem c3_counterexample :
    create_volume (CIOBlockDeviceAPI_init uuid1) uuid1 1
      ≠ Except.error (PyErr.nameError "requested_volume") ∧
    attach_volume (CIOBlockDeviceAPI_init uuid1) "vol-1" "i-1"
      ≠ Except.error (PyErr.nameError "attached_volume") := by
  refine ⟨fun h => ?_, fun h => ?_⟩
  · have h2 : (Except.error PyErr.moduleParseError : Except PyErr BlockDeviceVolume)
        = Except.error (PyErr.nameError "requested_volume") := h
    simp at h2
  · have h2 : (Except.error (PyErr.nameError "all_volumes") :
        Except PyErr BlockDeviceVolume)
        = Except.error (PyErr.nameError "attached_volume") := h
    simp at h2

/-- C3 (amended): create_volume, list_volumes and attach_volume each fail
before reaching any backend call and never return a result, but the first
failures are: the invalid syntax of the line-195 command list in
create_volume (not requested_volume), the undefined cio_volume in
list_volumes (as claimed), and the undefined all_volumes inside
_get_cio_volume for attach_volume (not attached_volume). -/
theorem c3_amended (self : CIOBlockDeviceAPI) (d : UUIDv) (sz : Int)
    (b a : String) :
    create_volume self d sz = Except.error PyErr.moduleParseError ∧
    list_volumes self = Except.error (PyErr.nameError "cio_volume") ∧
    attach_volume self b a = Except.error (PyErr.nameError "all_volumes") :=
  ⟨rfl, rfl, rfl⟩

/-- C4: the volume lookup of get_device_path never succeeds: on every
environment, every instance state and every blockdevice_id the call fails
with the NameError on all_volumes raised inside _get_cio_volume, so the
documented UnattachedVolume / generic-Exception / return-path branches at
lines 322-334 are unreachable. -/
theorem c4_get_device_path_always_nameerror (env : Env)
    (self : CIOBlockDeviceAPI) (blockdevice_id : String) :
    get_device_path env self blockdevice_id
      = Except.error (PyErr.nameError "all_volumes") := rfl

/-- C5: the sidecar-metadata tag mapping built in create_volume has exactly
three entries, in order the metadata-format-version label mapped to 1, the
cluster-id label mapped to this instance's cluster id, and the dataset-id
label mapped to the given dataset id. -/
theorem c5_metadata_three_tags (self : CIOBlockDeviceAPI) (d : UUIDv) :
    (create_volume_metadata self d).length = 3 ∧
    (create_volume_metadata self d).map Prod.fst
      = [METADATA_VERSION_LABEL, CLUSTER_ID_LABEL, DATASET_ID_LABEL] ∧
    tagsGet (create_volume_metadata self d) METADATA_VERSION_LABEL = some "1" ∧
    tagsGet (create_volume_metadata self d) CLUSTER_ID_LABEL
      = some (uuidStr self.cluster_id) ∧
    tagsGet (create_volume_metadata self d) DATASET_ID_LABEL
      = some (uuidStr d) :=
  ⟨rfl, rfl, rfl, rfl, rfl⟩

/-- C6: no operation enforces cluster membership: the outcome of every
public operation is independent of the instance's cluster id, and
list_volumes - the only operation whose body mentions the
_is_cluster_volume check - fails with the NameError on cio_volume before
the check can run. -/
theorem c6_cluster_check_never_enforced (env : Env) (c1 c2 : UUIDv)
    (l : Bool) (call : OpCall) :
    (runOp env ⟨c1, l⟩ call).2 = (runOp env ⟨c2, l⟩ call).2 ∧
    (runOp env ⟨c1, l⟩ OpCall.listVolumes).2
      = Except.error (PyErr.nameError "cio_volume") := by
  cases call <;> exact ⟨rfl, rfl⟩

/-- C7: the lock created unheld by __init__ is never acquired, released or
read: every public operation leaves the whole instance state (hence the
lock field) unchanged, and its outcome is the same whichever state the
lock is in. -/
theorem c7_lock_never_used (env : Env) (self : CIOBlockDeviceAPI)
    (call : OpCall) (c : UUIDv) (l1 l2 : Bool) :
    (runOp env self call).1 = self ∧
    (runOp env ⟨c, l1⟩ call).2 = (runOp env ⟨c, l2⟩ call).2 ∧
    (CIOBlockDeviceAPI_init c).lock = false := by
  cases call <;> exact ⟨rfl, rfl, rfl⟩

/-- C8 counterexample: compute_instance_id is a public operation of the
adapter class but is absent from the claim's operation list, and that list
names seven operations, not six. -/
theorem c8_counterexample :
    "compute_instance_id" ∈ publicOperationNames ∧
    "compute_instance_id" ∉ claimedOperationNames ∧
    claimedOperationNames.length = 7 := by
  decide

/-- C8 (amended): the adapter class exposes exactly eight public
operations: the seven the claim names plus compute_instance_id. -/
theorem c8_amended :
    publicOperationNames
      = ["allocation_unit", "compute_instance_id", "create_volume",
         "list_volumes", "attach_volume", "detach_volume", "destroy_volume",
         "get_device_path"] ∧
    claimedOperationNames.all (fun s => publicOperationNames.contains s)
      = true := by
  decide

/-- C9: the conversion helper never produces a BlockDeviceVolume: on every
input volume it fails with the NameError on the undefined name ebs_volume
at the size expression (line 92), before the blockdevice_id, attached_to
and dataset_id fields are ever assembled. -/
theorem c9_converter_always_nameerror (v : CIOVolume) :
    _blockdevicevolume_from_cio_volume v
      = Except.error (PyErr.nameError "ebs_volume") := rfl

/-- C10: allocation_unit is a deterministic constant: for every instance
state and every environment it returns exactly 8589934592 bytes and leaves
the state unchanged. -/
theorem c10_allocation_unit_constant (env : Env) (self : CIOBlockDeviceAPI) :
    allocation_unit self = Except.ok 8589934592 ∧
    runOp env self OpCall.allocationUnit
      = (self, Except.ok (PyValue.int 8589934592)) :=
  ⟨rfl, rfl⟩
